import Mathlib

/-!
Verification of the stepper-motor driver of IIoT-Lab5.

The driver state (`Stepper`) and its operations are shallowly embedded from
`src/stepper.py` and `src/functions.py`.  Python floats are modelled as exact
rationals (`ℚ`), Python ints as `ℤ`, and the Python built-in `round` (which
rounds half to even) as `pyRound`.  GPIO coil writes performed by `set_step`
are collected into an explicit trace (a `List Pattern`), so "performs no
motion / no output-line writes" is the statement that this trace is empty.
The status LEDs attached via `set_LEDs` are modelled as four `Bool` fields of
the driver state.  `print` calls are display-only and have no counterpart in
the model.
-/

namespace IIoTLab5

/-- Python's built-in `round(q)` to an integer: round half to even
(banker's rounding), on the exact-rational model of floats. -/
def pyRound (q : ℚ) : ℤ :=
  let f := ⌊q⌋
  if 2 * (q - f) < 1 then f
  else if 1 < 2 * (q - f) then f + 1
  else if f % 2 = 0 then f else f + 1

/-- Python's `round(q, 1)`: round to one decimal place, half to even. -/
def pyRound1 (q : ℚ) : ℚ :=
  (pyRound (10 * q) : ℚ) / 10

/-- `functions.normalize(value, rangeStart, rangeEnd)`:
`shift = value - rangeStart`, `rangeWidth = rangeEnd - rangeStart`,
result `(shift - floor(shift/rangeWidth)*rangeWidth) + rangeStart`.
On integers, Python's `floor(shift/rangeWidth)` is floor division,
i.e. `Int.fdiv`. -/
def normalize (value rangeStart rangeEnd : ℤ) : ℤ :=
  let shift := value - rangeStart
  let rangeWidth := rangeEnd - rangeStart
  (shift - (Int.fdiv shift rangeWidth) * rangeWidth) + rangeStart

/-- `functions.to_angle(steps)`: `round(abs(steps/1.42222), 1)`. -/
def to_angle (steps : ℤ) : ℚ :=
  pyRound1 |(steps : ℚ) / (142222 / 100000)|

/-- Python's `str.lower()` on the ASCII direction tokens, modelled as a
character-wise lowering of the string. -/
def lower (s : String) : String := ⟨s.data.map Char.toLower⟩

/-- One energisation pattern of the four coil lines, as passed to
`set_step(A1, A2, B1, B2)`. -/
abbrev Pattern := ℕ × ℕ × ℕ × ℕ

/-- The state of `stepper.Stepper`: step delay, the two signed step
counters, the speed limits set in `__init__`, and the four status LEDs
attached by `set_LEDs` (`red` = idle, `blue` = cw, `orange` = ccw,
`green` = secondary). -/
structure Stepper where
  delay : ℚ
  stepsFromHome : ℤ
  stepsFromDefaultHome : ℤ
  minSpeed : ℚ
  maxSpeed : ℚ
  redLED : Bool
  blueLED : Bool
  greenLED : Bool
  orangeLED : Bool
deriving Repr, DecidableEq

/-- The state after `__init__` and `set_LEDs` (which turns the red LED on):
`delay = 0.00195`, both counters `0`, `minSpeed = 10`, `maxSpeed = 4`. -/
def Stepper.init : Stepper where
  delay := 39 / 20000
  stepsFromHome := 0
  stepsFromDefaultHome := 0
  minSpeed := 10
  maxSpeed := 4
  redLED := true
  blueLED := false
  greenLED := false
  orangeLED := false

/-- The `ValueError` raised by `set_speed` ("cannot complete a revolution in
under 4 seconds"), i.e. the spec's `InvalidSpeed` condition. -/
inductive SpeedError where
  | invalidSpeed
deriving Repr, DecidableEq

/-- `Stepper.set_delay(delay)`. -/
def Stepper.set_delay (s : Stepper) (delay : ℚ) : Stepper :=
  { s with delay := delay }

/-- `Stepper.set_speed(secPerRev)`: raises if `secPerRev < self.maxSpeed`,
otherwise `self.delay = secPerRev / 2050`. -/
def Stepper.set_speed (s : Stepper) (secPerRev : ℚ) : Except SpeedError Stepper :=
  if secPerRev < s.maxSpeed then Except.error SpeedError.invalidSpeed
  else Except.ok { s with delay := secPerRev / 2050 }

/-- `Stepper.set_speed_pct(pct)`: inputs `≤ 1` are scaled by 100, the result
is clamped to `[0, 100]`, then
`set_speed(minSpeed - (pct/100)*(minSpeed - maxSpeed))`. -/
def Stepper.set_speed_pct (s : Stepper) (pct : ℚ) : Except SpeedError Stepper :=
  let pct1 := if pct ≤ 1 then pct * 100 else pct
  let pct2 := if 100 < pct1 then 100 else pct1
  let pct3 := if pct2 < 0 then 0 else pct2
  s.set_speed (s.minSpeed - (pct3 / 100) * (s.minSpeed - s.maxSpeed))

/-- `Stepper.num_steps_required(angle)`: `int(round(1.4222*angle, 0))`
(a method on the driver, though it does not read the state). -/
def Stepper.num_steps_required (_ : Stepper) (angle : ℚ) : ℤ :=
  pyRound (14222 / 10000 * angle)

/-- `Stepper.deactivate()`: `set_step(0,0,0,0)`, red LED on, all other LEDs
off.  Returns the new state and the coil write it performs. -/
def Stepper.deactivate (s : Stepper) : Stepper × List Pattern :=
  ({ s with redLED := true, blueLED := false, greenLED := false, orangeLED := false },
   [(0, 0, 0, 0)])

/-- The errors `rotate` reports (by printing and returning early). -/
inductive RotateError where
  | invalidDirection
  | noDistanceSpecified
deriving Repr, DecidableEq

/-- The four coil writes of one clockwise step of `rotate`'s loop body. -/
def cwStep : List Pattern := [(1,0,0,1), (0,1,0,1), (0,1,1,0), (1,0,1,0)]

/-- The four coil writes of one counter-clockwise step of `rotate`'s loop
body. -/
def ccwStep : List Pattern := [(1,0,1,0), (0,1,1,0), (0,1,0,1), (1,0,0,1)]

/-- Truthiness of the optional `angle` argument: `None` and `0` are falsy. -/
def truthyQ : Option ℚ → Bool
  | none => false
  | some a => a ≠ 0

/-- Truthiness of the optional `steps` argument: `None` and `0` are falsy. -/
def truthyZ : Option ℤ → Bool
  | none => false
  | some n => n ≠ 0

/-- `Stepper.rotate(direction, angle=None, steps=None)`.  Returns the new
state, the trace of coil writes, and the error condition if any.
`numSteps = num_steps_required(angle) if angle else steps if steps else None`,
and `if not numSteps` also catches an explicit 0.  The reassignment of
`angle` to a display string when only `steps` is given is print-only and
omitted.  Each loop iteration's `sleep(self.delay)` calls are timing only. -/
def Stepper.rotate (s : Stepper) (direction : String)
    (angle : Option ℚ) (steps : Option ℤ) :
    Stepper × List Pattern × Option RotateError :=
  if lower direction ∉ (["cw", "ccw"] : List String) then
    (s, [], some RotateError.invalidDirection)
  else
    let numSteps : Option ℤ :=
      if truthyQ angle then some (s.num_steps_required (angle.getD 0))
      else if truthyZ steps then steps
      else none
    match numSteps with
    | none => (s, [], some RotateError.noDistanceSpecified)
    | some n =>
      if n = 0 then (s, [], some RotateError.noDistanceSpecified)
      else
        let s1 := { s with redLED := false }
        if lower direction = "cw" then
          let s2 := { s1 with blueLED := true, greenLED := true,
                              stepsFromHome := s1.stepsFromHome - n,
                              stepsFromDefaultHome := s1.stepsFromDefaultHome - n }
          let d := s2.deactivate
          (d.1, (List.replicate n.toNat cwStep).flatten ++ d.2, none)
        else
          let s2 := { s1 with greenLED := true, orangeLED := true,
                              stepsFromHome := s1.stepsFromHome + n,
                              stepsFromDefaultHome := s1.stepsFromDefaultHome + n }
          let d := s2.deactivate
          (d.1, (List.replicate n.toNat ccwStep).flatten ++ d.2, none)

/-- `Stepper.go_home(default=True)`: selects the counter, normalizes it to
`[-256, 256)`, returns unchanged if the result is 0, otherwise rotates
(ccw for negative, cw for positive), then resets the selected counter and
unconditionally zeroes `stepsFromHome`.  Returns the new state and the coil
write trace. -/
def Stepper.go_home (s : Stepper) (default : Bool) : Stepper × List Pattern :=
  let stepsFromHome := if default then s.stepsFromDefaultHome else s.stepsFromHome
  let steps := normalize stepsFromHome (-256) 256
  if steps = 0 then (s, [])
  else
    let r := if steps < 0 then s.rotate "ccw" none (some |steps|)
             else s.rotate "cw" none (some steps)
    let s2 := if default then { r.1 with stepsFromDefaultHome := 0 }
              else { r.1 with stepsFromHome := 0 }
    ({ s2 with stepsFromHome := 0 }, r.2.1)

/-- `Stepper.set_home()`: zeroes `stepsFromHome` only. -/
def Stepper.set_home (s : Stepper) : Stepper :=
  { s with stepsFromHome := 0 }

/-- `Stepper.reset_home()`: sets `stepsFromHome = stepsFromDefaultHome`. -/
def Stepper.reset_home (s : Stepper) : Stepper :=
  { s with stepsFromHome := s.stepsFromDefaultHome }

/-- The spec's Idle state, observed on the status indicators: the idle (red)
LED is on and the direction LEDs are off. -/
def Stepper.Idle (s : Stepper) : Prop :=
  s.redLED = true ∧ s.blueLED = false ∧ s.greenLED = false ∧ s.orangeLED = false

/-! ## Helper lemmas -/

/-- For `a < b`, `normalize` is the Euclidean-mod range reduction. -/
lemma normalize_eq_emod (v a b : ℤ) (h : a < b) :
    normalize v a b = (v - a) % (b - a) + a := by
  have hb : (0 : ℤ) ≤ b - a := by omega
  simp only [normalize]
  rw [Int.fdiv_eq_ediv _ hb, Int.emod_def]
  ring

lemma lower_cw : lower "cw" = "cw" := rfl

lemma lower_ccw : lower "ccw" = "ccw" := rfl

/-- `rotate` with an unrecognized direction returns the error and nothing
else. -/
lemma rotate_invalid_dir (s : Stepper) (d : String) (a : Option ℚ) (t : Option ℤ)
    (h : lower d ∉ (["cw", "ccw"] : List String)) :
    s.rotate d a t = (s, [], some RotateError.invalidDirection) := by
  simp only [Stepper.rotate, if_pos h]

/-- `rotate` with a valid direction but falsy `angle` and `steps` returns the
no-distance error and nothing else. -/
lemma rotate_no_distance (s : Stepper) (d : String) (a : Option ℚ) (t : Option ℤ)
    (hd : lower d ∈ (["cw", "ccw"] : List String))
    (ha : truthyQ a = false) (ht : truthyZ t = false) :
    s.rotate d a t = (s, [], some RotateError.noDistanceSpecified) := by
  have hnd : ¬ (lower d ∉ (["cw", "ccw"] : List String)) := fun hc => hc hd
  simp only [Stepper.rotate, ha, ht, if_neg hnd, Bool.false_eq_true, if_false]

/-- A successful clockwise `rotate` by `steps = n`. -/
lemma rotate_cw_steps (s : Stepper) (n : ℤ) (hn : n ≠ 0) :
    s.rotate "cw" none (some n) =
      ({ s with redLED := true, blueLED := false, greenLED := false, orangeLED := false,
                stepsFromHome := s.stepsFromHome - n,
                stepsFromDefaultHome := s.stepsFromDefaultHome - n },
       (List.replicate n.toNat cwStep).flatten ++ [(0, 0, 0, 0)], none) := by
  simp [Stepper.rotate, truthyQ, truthyZ, hn, lower_cw, Stepper.deactivate]

/-- A successful counter-clockwise `rotate` by `steps = n`. -/
lemma rotate_ccw_steps (s : Stepper) (n : ℤ) (hn : n ≠ 0) :
    s.rotate "ccw" none (some n) =
      ({ s with redLED := true, blueLED := false, greenLED := false, orangeLED := false,
                stepsFromHome := s.stepsFromHome + n,
                stepsFromDefaultHome := s.stepsFromDefaultHome + n },
       (List.replicate n.toNat ccwStep).flatten ++ [(0, 0, 0, 0)], none) := by
  simp [Stepper.rotate, truthyQ, truthyZ, hn, lower_ccw, Stepper.deactivate]

/-! ## Claim C3 -/

/-- C3: `normalize(value, -256, 256)` always lands in `[-256, 256)`, and for
all integer bounds `a < b`, `normalize` is periodic with period `b - a`. -/
theorem C3_normalize_range_and_periodic :
    (∀ v : ℤ, -256 ≤ normalize v (-256) 256 ∧ normalize v (-256) 256 < 256) ∧
    (∀ (v a b : ℤ), a < b → normalize (v + (b - a)) a b = normalize v a b) := by
  constructor
  · intro v
    rw [normalize_eq_emod v (-256) 256 (by norm_num)]
    have h1 : (0 : ℤ) ≤ (v - -256) % (256 - -256) :=
      Int.emod_nonneg _ (by norm_num)
    have h2 : (v - -256) % (256 - -256) < 256 - -256 :=
      Int.emod_lt_of_pos _ (by norm_num)
    omega
  · intro v a b h
    rw [normalize_eq_emod _ a b h, normalize_eq_emod v a b h]
    have hr : v + (b - a) - a = (v - a) + (b - a) * 1 := by ring
    rw [hr, Int.add_mul_emod_self_left]

/-- Witness for C3 at concrete inputs. -/
theorem C3_normalize_range_and_periodic_witness :
    (-256 ≤ normalize 500 (-256) 256 ∧ normalize 500 (-256) 256 < 256) ∧
    normalize (-300 + (256 - -256)) (-256) 256 = normalize (-300) (-256) 256 :=
  ⟨C3_normalize_range_and_periodic.1 500,
   C3_normalize_range_and_periodic.2 (-300) (-256) 256 (by norm_num)⟩

instance {ε α : Type} [DecidableEq ε] [DecidableEq α] : DecidableEq (Except ε α) :=
  fun a b =>
    match a, b with
    | Except.ok x, Except.ok y =>
        decidable_of_iff (x = y) ⟨congrArg Except.ok, fun h => by injection h⟩
    | Except.error x, Except.error y =>
        decidable_of_iff (x = y) ⟨congrArg Except.error, fun h => by injection h⟩
    | Except.ok _, Except.error _ => isFalse (fun h => by injection h)
    | Except.error _, Except.ok _ => isFalse (fun h => by injection h)

/-- On success, `set_speed` only replaces `delay` by `secPerRev / 2050`. -/
lemma set_speed_ok (s s2 : Stepper) (q : ℚ) (h : s.set_speed q = Except.ok s2) :
    s2 = { s with delay := q / 2050 } := by
  simp only [Stepper.set_speed] at h
  split at h
  · exact absurd h (by simp)
  · injection h with h2
    exact h2.symm

/-! ## Claim C1 -/

/-- C1: a clockwise rotation by `steps = n` decrements both counters by `n`,
a counter-clockwise one increments them, so `rotate('cw', steps=n)` followed
by `rotate('ccw', steps=n)` restores both counters; neither call reports an
error. -/
theorem C1_rotate_inverse_cancel (s : Stepper) (n : ℤ) (hn : 0 < n) :
    (s.rotate "cw" none (some n)).2.2 = none ∧
    ((s.rotate "cw" none (some n)).1.rotate "ccw" none (some n)).2.2 = none ∧
    (s.rotate "cw" none (some n)).1.stepsFromHome = s.stepsFromHome - n ∧
    (s.rotate "cw" none (some n)).1.stepsFromDefaultHome = s.stepsFromDefaultHome - n ∧
    ((s.rotate "cw" none (some n)).1.rotate "ccw" none (some n)).1.stepsFromHome
      = s.stepsFromHome ∧
    ((s.rotate "cw" none (some n)).1.rotate "ccw" none (some n)).1.stepsFromDefaultHome
      = s.stepsFromDefaultHome := by
  rw [rotate_cw_steps s n hn.ne']
  rw [rotate_ccw_steps _ n hn.ne']
  refine ⟨rfl, rfl, rfl, rfl, ?_, ?_⟩ <;> simp

/-- Witness for C1 at the spec's example input `n = 200`. -/
theorem C1_rotate_inverse_cancel_witness :
    (0 : ℤ) < 200 ∧
    ((Stepper.init.rotate "cw" none (some 200)).2.2 = none ∧
     ((Stepper.init.rotate "cw" none (some 200)).1.rotate "ccw" none (some 200)).2.2 = none ∧
     (Stepper.init.rotate "cw" none (some 200)).1.stepsFromHome
       = Stepper.init.stepsFromHome - 200 ∧
     (Stepper.init.rotate "cw" none (some 200)).1.stepsFromDefaultHome
       = Stepper.init.stepsFromDefaultHome - 200 ∧
     ((Stepper.init.rotate "cw" none (some 200)).1.rotate "ccw" none (some 200)).1.stepsFromHome
       = Stepper.init.stepsFromHome ∧
     ((Stepper.init.rotate "cw" none (some 200)).1.rotate "ccw" none
        (some 200)).1.stepsFromDefaultHome = Stepper.init.stepsFromDefaultHome) :=
  ⟨by norm_num, C1_rotate_inverse_cancel Stepper.init 200 (by norm_num)⟩

/-! ## Claim C5 -/

/-- C5: with a valid direction and falsy `angle` and `steps` (absent or
exactly 0), `rotate` reports `NoDistanceSpecified`, performs no coil write,
and leaves the whole state (in particular both counters and the delay)
unchanged. -/
theorem C5_rotate_no_distance_noop (s : Stepper) (d : String) (a : Option ℚ) (t : Option ℤ)
    (hd : lower d ∈ (["cw", "ccw"] : List String))
    (ha : truthyQ a = false) (ht : truthyZ t = false) :
    s.rotate d a t = (s, [], some RotateError.noDistanceSpecified) ∧
    (s.rotate d a t).1.stepsFromHome = s.stepsFromHome ∧
    (s.rotate d a t).1.stepsFromDefaultHome = s.stepsFromDefaultHome ∧
    (s.rotate d a t).1.delay = s.delay := by
  rw [rotate_no_distance s d a t hd ha ht]
  exact ⟨rfl, rfl, rfl, rfl⟩

/-- Witness for C5: `rotate('cw', angle=0, steps=0)` on the initial state. -/
theorem C5_rotate_no_distance_noop_witness :
    lower "cw" ∈ (["cw", "ccw"] : List String) ∧
    truthyQ (some 0) = false ∧ truthyZ (some 0) = false ∧
    (Stepper.init.rotate "cw" (some 0) (some 0)
        = (Stepper.init, [], some RotateError.noDistanceSpecified) ∧
     (Stepper.init.rotate "cw" (some 0) (some 0)).1.stepsFromHome
        = Stepper.init.stepsFromHome ∧
     (Stepper.init.rotate "cw" (some 0) (some 0)).1.stepsFromDefaultHome
        = Stepper.init.stepsFromDefaultHome ∧
     (Stepper.init.rotate "cw" (some 0) (some 0)).1.delay = Stepper.init.delay) :=
  ⟨by decide, by decide, by decide,
   C5_rotate_no_distance_noop Stepper.init "cw" (some 0) (some 0)
     (by decide) (by decide) (by decide)⟩

/-! ## Claim C6 -/

/-- C6: any direction whose lowering is outside `{cw, ccw}` makes `rotate`
report `InvalidDirection`, perform no coil write, and return the state
entirely unchanged (counters, delay and LEDs), so an Idle driver stays
Idle. -/
theorem C6_rotate_invalid_direction_noop (s : Stepper) (d : String)
    (a : Option ℚ) (t : Option ℤ)
    (h : lower d ∉ (["cw", "ccw"] : List String)) :
    s.rotate d a t = (s, [], some RotateError.invalidDirection) ∧
    ((s.rotate d a t).1.Idle ↔ s.Idle) := by
  rw [rotate_invalid_dir s d a t h]
  exact ⟨rfl, Iff.rfl⟩

/-- Witness for C6: `rotate('up', steps=10)` on the initial (Idle) state. -/
theorem C6_rotate_invalid_direction_noop_witness :
    lower "up" ∉ (["cw", "ccw"] : List String) ∧
    (Stepper.init.rotate "up" none (some 10)
        = (Stepper.init, [], some RotateError.invalidDirection) ∧
     ((Stepper.init.rotate "up" none (some 10)).1.Idle ↔ Stepper.init.Idle)) :=
  ⟨by decide, C6_rotate_invalid_direction_noop Stepper.init "up" none (some 10) (by decide)⟩

/-! ## Claim C2 -/

/-- C2: when `go_home`'s normalized step count is nonzero, the selected
counter (`stepsFromDefaultHome` when `default` is true, `stepsFromHome`
otherwise) ends at 0, and `stepsFromHome` ends at 0 unconditionally. -/
theorem C2_go_home_resets_counters (s : Stepper) (d : Bool)
    (h : normalize (if d then s.stepsFromDefaultHome else s.stepsFromHome) (-256) 256 ≠ 0) :
    (s.go_home d).1.stepsFromHome = 0 ∧
    (d = true → (s.go_home d).1.stepsFromDefaultHome = 0) := by
  simp only [Stepper.go_home, if_neg h]
  constructor
  · trivial
  · intro hd
    subst hd
    simp

/-- Witness for C2: homing against the default counter from offset 10. -/
theorem C2_go_home_resets_counters_witness :
    normalize (if true then (10 : ℤ) else 0) (-256) 256 ≠ 0 ∧
    (({ Stepper.init with stepsFromDefaultHome := 10 }.go_home true).1.stepsFromHome = 0 ∧
     (true = true →
      ({ Stepper.init with stepsFromDefaultHome := 10 }.go_home true).1.stepsFromDefaultHome
        = 0)) :=
  ⟨by decide, C2_go_home_resets_counters { Stepper.init with stepsFromDefaultHome := 10 } true
     (by decide)⟩

/-! ## Claim C8 -/

/-- C8: when the normalized step count is exactly 0, `go_home` performs no
coil write and returns the state unchanged. -/
theorem C8_go_home_zero_noop (s : Stepper) (d : Bool)
    (h : normalize (if d then s.stepsFromDefaultHome else s.stepsFromHome) (-256) 256 = 0) :
    s.go_home d = (s, []) := by
  simp only [Stepper.go_home, h]
  simp

/-- Witness for C8: `go_home(default=True)` with `stepsFromDefaultHome = 0`. -/
theorem C8_go_home_zero_noop_witness :
    normalize (if true then (0 : ℤ) else 0) (-256) 256 = 0 ∧
    Stepper.init.go_home true = (Stepper.init, []) :=
  ⟨by decide, C8_go_home_zero_noop Stepper.init true (by decide)⟩

/-! ## Claim C10 -/

/-- C10: every `rotate` call, with any arguments, changes both counters by
the same amount, so `stepsFromDefaultHome - stepsFromHome` is invariant
under `rotate`; it is also invariant under `set_delay`, `set_speed`,
`set_speed_pct` and `deactivate`, leaving `go_home`, `set_home` and
`reset_home` as the only operations that can change it. -/
theorem C10_rotate_preserves_counter_diff :
    (∀ (s : Stepper) (d : String) (a : Option ℚ) (t : Option ℤ),
      (s.rotate d a t).1.stepsFromDefaultHome - (s.rotate d a t).1.stepsFromHome
        = s.stepsFromDefaultHome - s.stepsFromHome) ∧
    (∀ (s : Stepper) (q : ℚ),
      (s.set_delay q).stepsFromDefaultHome - (s.set_delay q).stepsFromHome
        = s.stepsFromDefaultHome - s.stepsFromHome) ∧
    (∀ (s s2 : Stepper) (q : ℚ), s.set_speed q = Except.ok s2 →
      s2.stepsFromDefaultHome - s2.stepsFromHome
        = s.stepsFromDefaultHome - s.stepsFromHome) ∧
    (∀ (s s2 : Stepper) (q : ℚ), s.set_speed_pct q = Except.ok s2 →
      s2.stepsFromDefaultHome - s2.stepsFromHome
        = s.stepsFromDefaultHome - s.stepsFromHome) ∧
    (∀ s : Stepper,
      s.deactivate.1.stepsFromDefaultHome - s.deactivate.1.stepsFromHome
        = s.stepsFromDefaultHome - s.stepsFromHome) := by
  refine ⟨?_, ?_, ?_, ?_, ?_⟩
  · intro s d a t
    simp only [Stepper.rotate, Stepper.deactivate]
    split
    · simp
    · split
      · simp
      · split
        · simp
        · split <;> simp
  · intro s q
    simp [Stepper.set_delay]
  · intro s s2 q h
    rw [set_speed_ok s s2 q h]
  · intro s s2 q h
    simp only [Stepper.set_speed_pct] at h
    rw [set_speed_ok _ s2 _ h]
  · intro s
    simp [Stepper.deactivate]

/-! ## Claim C4 -/

/-- C4: `set_speed` fails with `InvalidSpeed` exactly when the requested
period is below `maxSpeed` (the failure returns no new state, so the delay
is untouched); otherwise it succeeds and only sets
`delay = secPerRev / 2050`.  In particular `set_speed(3.9)` fails and
`set_speed(4.0)` sets the delay to `4/2050` on the reference
configuration. -/
theorem C4_set_speed_threshold (s : Stepper) (q : ℚ) :
    (s.set_speed q = Except.error SpeedError.invalidSpeed ↔ q < s.maxSpeed) ∧
    (¬ q < s.maxSpeed → s.set_speed q = Except.ok { s with delay := q / 2050 }) ∧
    Stepper.init.set_speed (39 / 10) = Except.error SpeedError.invalidSpeed ∧
    Stepper.init.set_speed 4 = Except.ok { Stepper.init with delay := 4 / 2050 } := by
  refine ⟨?_, ?_, by norm_num [Stepper.set_speed, Stepper.init],
         by norm_num [Stepper.set_speed, Stepper.init]⟩
  · constructor
    · intro h
      by_contra hq
      simp [Stepper.set_speed, if_neg hq] at h
    · intro hq
      simp [Stepper.set_speed, if_pos hq]
  · intro hq
    simp [Stepper.set_speed, if_neg hq]

/-- Witness for C4's success case at the concrete period 5. -/
theorem C4_set_speed_threshold_witness :
    ¬ (5 : ℚ) < Stepper.init.maxSpeed ∧
    Stepper.init.set_speed 5 = Except.ok { Stepper.init with delay := 5 / 2050 } :=
  ⟨by norm_num [Stepper.init], (C4_set_speed_threshold Stepper.init 5).2.1 (by norm_num [Stepper.init])⟩

/-! ## Claim C7 -/

/-- C7 counterexample: `p = 1/100` lies in `[0, 1]`, yet
`set_speed_pct(1/100)` and `set_speed_pct(100 * (1/100))` produce different
delays (`1/100` is rescaled to `1%`, while `100 * (1/100) = 1` is itself
taken as a fraction and rescaled to `100%`), refuting the claim's "for
every fraction p in [0,1]". -/
theorem C7_pct_fraction_counterexample :
    (0 : ℚ) ≤ 1 / 100 ∧ (1 / 100 : ℚ) ≤ 1 ∧
    Stepper.init.set_speed_pct (1 / 100)
      = Except.ok { Stepper.init with delay := 497 / 102500 } ∧
    Stepper.init.set_speed_pct (100 * (1 / 100))
      = Except.ok { Stepper.init with delay := 4 / 2050 } ∧
    Stepper.init.set_speed_pct (1 / 100)
      ≠ Stepper.init.set_speed_pct (100 * (1 / 100)) := by
  have e1 : Stepper.init.set_speed_pct (1 / 100)
      = Except.ok { Stepper.init with delay := 497 / 102500 } := by
    norm_num [Stepper.set_speed_pct, Stepper.set_speed, Stepper.init]
  have e2 : Stepper.init.set_speed_pct (100 * (1 / 100))
      = Except.ok { Stepper.init with delay := 4 / 2050 } := by
    norm_num [Stepper.set_speed_pct, Stepper.set_speed, Stepper.init]
  refine ⟨by norm_num, by norm_num, e1, e2, ?_⟩
  rw [e1, e2]
  intro h
  injection h with h2
  have h3 : (497 / 102500 : ℚ) = 4 / 2050 := congrArg Stepper.delay h2
  norm_num at h3

/-- C7 (amended): for every fraction `p` with `1/100 < p ≤ 1`,
`set_speed_pct p` delegates to `set_speed` with the linear interpolation
`minSpeed - p * (minSpeed - maxSpeed)`, and `set_speed_pct (100 * p)`
produces the identical result. -/
theorem C7_pct_fraction_equiv (s : Stepper) (p : ℚ)
    (h1 : 1 / 100 < p) (h2 : p ≤ 1) :
    s.set_speed_pct p = s.set_speed (s.minSpeed - p * (s.minSpeed - s.maxSpeed)) ∧
    s.set_speed_pct (100 * p) = s.set_speed_pct p := by
  have hp0 : (0 : ℚ) < p := lt_trans (by norm_num) h1
  have e1 : s.set_speed_pct p
      = s.set_speed (s.minSpeed - p * (s.minSpeed - s.maxSpeed)) := by
    simp only [Stepper.set_speed_pct, if_pos h2]
    rw [if_neg (by linarith : ¬ (100 : ℚ) < p * 100),
        if_neg (by nlinarith : ¬ p * 100 < 0)]
    congr 1
    ring
  have e2 : s.set_speed_pct (100 * p)
      = s.set_speed (s.minSpeed - p * (s.minSpeed - s.maxSpeed)) := by
    simp only [Stepper.set_speed_pct]
    rw [if_neg (by linarith : ¬ (100 : ℚ) * p ≤ 1),
        if_neg (by linarith : ¬ (100 : ℚ) < 100 * p),
        if_neg (by nlinarith : ¬ (100 : ℚ) * p < 0)]
    congr 1
    ring
  exact ⟨e1, e2.trans e1.symm⟩

/-- Witness for C7's amended statement at the spec's example `p = 1/2`
(so `100 * p = 50`). -/
theorem C7_pct_fraction_equiv_witness :
    (1 / 100 : ℚ) < 1 / 2 ∧ (1 / 2 : ℚ) ≤ 1 ∧
    (Stepper.init.set_speed_pct (1 / 2)
       = Stepper.init.set_speed
           (Stepper.init.minSpeed - (1 / 2) * (Stepper.init.minSpeed - Stepper.init.maxSpeed)) ∧
     Stepper.init.set_speed_pct (100 * (1 / 2)) = Stepper.init.set_speed_pct (1 / 2)) :=
  ⟨by norm_num, by norm_num,
   C7_pct_fraction_equiv Stepper.init (1 / 2) (by norm_num) (by norm_num)⟩

/-! ## Claim C9 -/

/-- Round-to-nearest is insensitive to the tie rule when the value is
strictly within half a unit of an integer. -/
lemma pyRound_eq_of_abs_lt {q : ℚ} {m : ℤ} (h : |q - m| < 1 / 2) : pyRound q = m := by
  rw [abs_lt] at h
  obtain ⟨h1, h2⟩ := h
  by_cases hq : (m : ℚ) ≤ q
  · have hf : ⌊q⌋ = m := by
      rw [Int.floor_eq_iff]
      exact ⟨hq, by linarith⟩
    simp only [pyRound]
    rw [hf, if_pos (show 2 * (q - (m : ℚ)) < 1 by linarith)]
  · push_neg at hq
    have hf : ⌊q⌋ = m - 1 := by
      rw [Int.floor_eq_iff]
      constructor
      · push_cast; linarith
      · push_cast; linarith
    have hc1 : ¬ 2 * (q - ((m - 1 : ℤ) : ℚ)) < 1 := by push_cast; linarith
    have hc2 : 1 < 2 * (q - ((m - 1 : ℤ) : ℚ)) := by push_cast; linarith
    simp only [pyRound]
    rw [hf, if_neg hc1, if_pos hc2]
    omega

/-- Evaluation rule for `pyRound` when the fractional part is below one
half. -/
lemma pyRound_of_floor_lt {q : ℚ} {f : ℤ} (hf : ⌊q⌋ = f)
    (h : 2 * (q - (f : ℚ)) < 1) : pyRound q = f := by
  simp only [pyRound]
  rw [hf, if_pos h]

/-- `pyRound` moves its argument by at most half a unit. -/
lemma abs_pyRound_sub_le (q : ℚ) : |(pyRound q : ℚ) - q| ≤ 1 / 2 := by
  have h0 : ((⌊q⌋ : ℤ) : ℚ) ≤ q := Int.floor_le q
  have h1 : q < ((⌊q⌋ : ℤ) : ℚ) + 1 := Int.lt_floor_add_one q
  simp only [pyRound]
  split_ifs with hc1 hc2 hc3 <;>
    · rw [abs_le]
      push_cast
      constructor <;> linarith

/-- Rounding to one decimal place moves the value by at most `1/20`. -/
lemma abs_pyRound1_sub_le (q : ℚ) : |pyRound1 q - q| ≤ 1 / 20 := by
  have h := abs_pyRound_sub_le (10 * q)
  have e : pyRound1 q - q = ((pyRound (10 * q) : ℚ) - 10 * q) / 10 := by
    simp only [pyRound1]
    ring
  rw [e, abs_div, abs_of_pos (show (0 : ℚ) < 10 by norm_num)]
  linarith

/-- C9 (amended): `num_steps_required ∘ to_angle` round-trips exactly for
every step count `n ≤ 30498`.  (It cannot round-trip for all `n`: the two
hard-coded constants `1.4222` and `1.42222` differ, so the composition
drifts by `n/71111` and first misses at `n = 30597`.) -/
theorem C9_steps_angle_roundtrip (s : Stepper) (n : ℕ) (hn : n ≤ 30498) :
    s.num_steps_required (to_angle (n : ℤ)) = (n : ℤ) := by
  have hx : to_angle (n : ℤ) = pyRound1 ((n : ℚ) / (142222 / 100000)) := by
    simp only [to_angle]
    congr 1
    rw [abs_of_nonneg (by positivity)]
    push_cast
    ring
  have hbound := abs_pyRound1_sub_le ((n : ℚ) / (142222 / 100000))
  have hnQ : (n : ℚ) ≤ 30498 := by exact_mod_cast hn
  have hn0 : (0 : ℚ) ≤ (n : ℚ) := by positivity
  simp only [Stepper.num_steps_required, hx]
  apply pyRound_eq_of_abs_lt
  push_cast
  have key : (14222 / 10000 : ℚ) * pyRound1 ((n : ℚ) / (142222 / 100000)) - (n : ℚ)
      = (14222 / 10000) * (pyRound1 ((n : ℚ) / (142222 / 100000))
          - (n : ℚ) / (142222 / 100000)) - (n : ℚ) / 71111 := by
    ring
  rw [key]
  have h1 : |(14222 / 10000 : ℚ) * (pyRound1 ((n : ℚ) / (142222 / 100000))
      - (n : ℚ) / (142222 / 100000))| ≤ (14222 / 10000) * (1 / 20) := by
    rw [abs_mul, abs_of_pos (show (0 : ℚ) < 14222 / 10000 by norm_num)]
    exact mul_le_mul_of_nonneg_left hbound (by norm_num)
  have h2 : |(n : ℚ) / 71111| ≤ 30498 / 71111 := by
    rw [abs_of_nonneg (by positivity)]
    linarith
  have tri := abs_sub ((14222 / 10000 : ℚ) * (pyRound1 ((n : ℚ) / (142222 / 100000))
      - (n : ℚ) / (142222 / 100000))) ((n : ℚ) / 71111)
  have hfinal : (14222 / 10000 : ℚ) * (1 / 20) + 30498 / 71111 < 1 / 2 := by norm_num
  linarith

/-- Witness for C9's amended round-trip at `n = 200`. -/
theorem C9_steps_angle_roundtrip_witness :
    (200 : ℕ) ≤ 30498 ∧
    Stepper.init.num_steps_required (to_angle ((200 : ℕ) : ℤ)) = ((200 : ℕ) : ℤ) :=
  ⟨by norm_num, C9_steps_angle_roundtrip Stepper.init 200 (by norm_num)⟩

/-- C9 counterexample: at `n = 30597` the round-trip returns `30596`,
one step short, so the claimed "for every nonnegative integer n" fails. -/
theorem C9_roundtrip_counterexample :
    Stepper.init.num_steps_required (to_angle 30597) = 30596 ∧
    Stepper.init.num_steps_required (to_angle 30597) ≠ 30597 := by
  have habs : |((30597 : ℤ) : ℚ) / (142222 / 100000)| = 32550000 / 1513 := by
    rw [abs_of_nonneg (by norm_num)]
    norm_num
  have h1 : ⌊(10 : ℚ) * |((30597 : ℤ) : ℚ) / (142222 / 100000)|⌋ = 215135 := by
    rw [habs, Int.floor_eq_iff]
    constructor <;> norm_num
  have h2 : pyRound ((10 : ℚ) * |((30597 : ℤ) : ℚ) / (142222 / 100000)|) = 215135 := by
    apply pyRound_of_floor_lt h1
    rw [habs]
    norm_num
  have h3 : to_angle 30597 = 43027 / 2 := by
    simp only [to_angle, pyRound1, h2]
    norm_num
  have h4 : ⌊(14222 / 10000 : ℚ) * (43027 / 2)⌋ = 30596 := by
    rw [Int.floor_eq_iff]
    constructor <;> norm_num
  have h5 : pyRound ((14222 / 10000 : ℚ) * (43027 / 2)) = 30596 :=
    pyRound_of_floor_lt h4 (by norm_num)
  have e : Stepper.init.num_steps_required (to_angle 30597) = 30596 := by
    rw [Stepper.num_steps_required, h3, h5]
  exact ⟨e, by rw [e]; norm_num⟩

end IIoTLab5
